import Mathlib

/-!
Shallow embedding of the E1.33 device core (tools/e133/E133Device.cpp).

The C++ class E133Device is embedded as a state record; each member
function becomes a Lean function from the device state (plus the inputs
the callback receives) to a new state together with a trace of externally
visible events: log lines, UDP sends, descriptor registration with the
select server, socket closes, close-notification callback invocations and
asynchronous dispatches to endpoints.  External collaborators whose code
is out of scope (RDMRequest parsing, the health checked connection Setup
result, the SendRDM transmit result) enter as explicit parameters.
Pointer-valued members that the source may leave NULL are embedded as
Option; a member function that dereferences such a pointer without a
guard is embedded as returning Option, with none on the NULL dereference.
-/

/-- An IPv4 address; the default constructed IPV4Address() of the source
is the zero address. -/
structure IPV4Address where
  address : Nat
deriving DecidableEq, Repr

/-- TCPConnectionStats (tools/e133/TCPConnectionStats.h): counters for
connection attempts and unhealthy declarations plus the last peer. -/
structure TCPConnectionStats where
  connection_events : Nat
  unhealthy_events : Nat
  ip_address : IPV4Address
deriving DecidableEq, Repr

/-- Which transport a decoded message arrived over
(ola::plugin::e131::TransportHeader::TransportType). -/
inductive TransportType
  | TCP
  | UDP
deriving DecidableEq, Repr

/-- The transport header handed up by the decode pipeline: source
address, source port and transport kind. -/
structure TransportHeader where
  source_ip : IPV4Address
  source_port : Nat
  transport : TransportType
deriving DecidableEq, Repr

/-- The E1.33 layer header: source name, sequence number, endpoint id,
and the rx ack / timeout flags (E133Header.h). -/
structure E133Header where
  source : String
  sequence : Nat
  endpoint : Nat
  rx_ack : Bool
  msg_timeout : Bool
deriving DecidableEq, Repr

/-- A parsed RDM request (ola::rdm::RDMRequest), kept abstract as its
payload bytes; parsing itself is an external collaborator. -/
structure RDMRequest where
  data : List Nat
deriving DecidableEq, Repr

/-- An RDM response (ola::rdm::RDMResponse), kept abstract. -/
structure RDMResponse where
  data : List Nat
deriving DecidableEq, Repr

/-- ola::rdm::rdm_response_code, restricted to the constructors the
device distinguishes plus representative other failure codes. -/
inductive rdm_response_code
  | RDM_COMPLETED_OK
  | RDM_WAS_BROADCAST
  | RDM_FAILED_TO_SEND
  | RDM_TIMEOUT
  | RDM_INVALID_RESPONSE
  | RDM_UNKNOWN_UID
  | RDM_CHECKSUM_INCORRECT
deriving DecidableEq, Repr

/-- The context EndpointRequest captures into the completion callback:
source address, source port, sequence number and endpoint id. -/
structure PendingContext where
  src_ip : IPV4Address
  src_port : Nat
  sequence_number : Nat
  endpoint_id : Nat
deriving DecidableEq, Repr

/-- Externally visible actions of the device, in program order. -/
inductive Event
  | logInfo (msg : String)
  | logWarn (msg : String)
  | closeDescriptor (fd : Nat)
  | addReadDescriptor (fd : Nat)
  | removeReadDescriptor (fd : Nat)
  | closeNotification
  | heartbeatSent
  | dispatch (endpoint : Nat) (request : RDMRequest) (ctx : PendingContext)
  | udpSend (dest_ip : IPV4Address) (dest_port : Nat) (header : E133Header)
      (pdu : Option RDMResponse)
deriving DecidableEq, Repr

/-- Recogniser for UDP send events. -/
def isUdpSend : Event → Bool
  | Event.udpSend _ _ _ _ => true
  | _ => false

/-- Recogniser for asynchronous dispatches to an endpoint. -/
def isDispatch : Event → Bool
  | Event.dispatch _ _ _ => true
  | _ => false

/-- Number of close-notification invocations in a trace. -/
def closeNotificationCount (evs : List Event) : Nat :=
  (evs.filter (fun e =>
    match e with
    | Event.closeNotification => true
    | _ => false)).length

/-- The state of a connected TCP socket (ola::network::TcpSocket) as far
as the device observes it: file descriptor, whether GetPeer succeeds and
what it reports, whether an on-close callback is currently installed
(SetOnClose installs it, TransferOnClose removes and returns it), and
whether the descriptor is open. -/
structure TcpSocketState where
  fd : Nat
  get_peer_ok : Bool
  peer_ip : IPV4Address
  peer_port : Nat
  on_close_set : Bool
  is_open : Bool
deriving DecidableEq, Repr

/-- The E133HealthCheckedConnection as far as the device observes it:
how many heartbeats it sent and how many HeartbeatReceived calls it got. -/
structure E133HealthCheckedConnection where
  heartbeats_sent : Nat
  heartbeats_received : Nat
deriving DecidableEq, Repr

/-- The member state of E133Device.  m_rdm_inflator_handlers is the set
of endpoint ids for which the RDM inflator currently has a handler
installed (SetRDMHandler adds to it, RemoveRDMHandler removes from it).
m_endpoint_manager is the registry content: endpoint id mapped to an
abstract endpoint handle.  m_ss_read_descriptors is the set of file
descriptors this device registered with the select server, in order of
registration.  The socket flags model whether the listening TCP socket
and the UDP socket are open or bound. -/
structure E133Device where
  m_rdm_inflator_handlers : Finset Nat
  m_root_endpoint : Option Nat
  m_endpoint_manager : List (Nat × Nat)
  m_tcp_stats : Option TCPConnectionStats
  m_health_checked_connection : Option E133HealthCheckedConnection
  m_incoming_tcp_transport : Bool
  m_tcp_descriptor : Option TcpSocketState
  m_ss_read_descriptors : List Nat
  m_tcp_socket_listening : Bool
  m_udp_socket_open : Bool
  m_udp_socket_bound : Bool
deriving DecidableEq

/-- A freshly constructed device: no handlers, no root endpoint, empty
registry, no active connection, sockets not yet opened.  The stats
pointer is whatever the constructor received, possibly NULL. -/
def freshDevice (tcp_stats : Option TCPConnectionStats) : E133Device :=
  { m_rdm_inflator_handlers := ∅
    m_root_endpoint := none
    m_endpoint_manager := []
    m_tcp_stats := tcp_stats
    m_health_checked_connection := none
    m_incoming_tcp_transport := false
    m_tcp_descriptor := none
    m_ss_read_descriptors := []
    m_tcp_socket_listening := false
    m_udp_socket_open := false
    m_udp_socket_bound := false }

/-- The fixed file descriptor of the listening TCP socket. -/
def tcp_socket_fd : Nat := 0

/-- The fixed file descriptor of the UDP socket. -/
def udp_socket_fd : Nat := 1

/-- Outcome of the external environment during Init: whether Listen on
the TCP socket, Init on the UDP socket and Bind on the UDP socket
succeed. -/
structure InitEnv where
  listen_ok : Bool
  udp_init_ok : Bool
  udp_bind_ok : Bool
deriving DecidableEq, Repr

namespace E133Device

/-- E133Device::SetRootEndpoint: stores the root endpoint and installs
the RDM handler for endpoint id 0. -/
def SetRootEndpoint (dev : E133Device) (endpoint : Nat) : E133Device :=
  { dev with
      m_root_endpoint := some endpoint
      m_rdm_inflator_handlers := insert 0 dev.m_rdm_inflator_handlers }

/-- E133Device::Init: Listen on the TCP socket (closing it and failing
on error, before any UDP setup), then Init and Bind the UDP socket (each
failure closes the TCP socket and fails; the Bind failure path does not
close the UDP socket that Init opened), and only on full success add the
UDP then the TCP descriptor to the select server. -/
def Init (dev : E133Device) (env : InitEnv) : Bool × E133Device :=
  if !env.listen_ok then
    (false, { dev with m_tcp_socket_listening := false })
  else
    let dev := { dev with m_tcp_socket_listening := true }
    if !env.udp_init_ok then
      (false, { dev with m_tcp_socket_listening := false })
    else
      let dev := { dev with m_udp_socket_open := true }
      if !env.udp_bind_ok then
        (false, { dev with m_tcp_socket_listening := false })
      else
        let dev := { dev with m_udp_socket_bound := true }
        let rds := dev.m_ss_read_descriptors ++ [udp_socket_fd, tcp_socket_fd]
        (true, { dev with m_ss_read_descriptors := rds })

/-- The log line NewTCPConnection emits about the peer, depending on
whether GetPeer succeeded. -/
def peerLogEvent (descriptor : TcpSocketState) : Event :=
  if descriptor.get_peer_ok then
    Event.logInfo "New TCP connection from"
  else
    Event.logWarn "New TCP connection but failed to determine peer address"

/-- E133Device::NewTCPConnection: if a health checked connection already
exists the new descriptor is closed and deleted and nothing else changes;
otherwise the stats (when non NULL) record the event and the peer, the
on-close hook is installed, the health checked connection is built
(setup_ok is the external Setup result; on failure the connection is torn
down again and the descriptor closed), then an eager heartbeat is sent,
the descriptor stored and added to the select server. -/
def NewTCPConnection (dev : E133Device) (descriptor : TcpSocketState)
    (setup_ok : Bool) : E133Device × List Event :=
  let entry := peerLogEvent descriptor
  if dev.m_health_checked_connection.isSome then
    (dev, [entry,
           Event.logWarn "Already got a TCP connection open, closing this one",
           Event.closeDescriptor descriptor.fd])
  else
    let ip_address :=
      if descriptor.get_peer_ok then descriptor.peer_ip else IPV4Address.mk 0
    let dev1 :=
      match dev.m_tcp_stats with
      | some stats =>
          let stats := { stats with
                           connection_events := stats.connection_events + 1
                           ip_address := ip_address }
          { dev with m_tcp_stats := some stats }
      | none => dev
    let descriptor := { descriptor with on_close_set := true }
    if !setup_ok then
      (dev1, [entry,
              Event.logWarn
                "Failed to setup HealthCheckedConnection, closing TCP connection",
              Event.closeDescriptor descriptor.fd])
    else
      let conn : E133HealthCheckedConnection :=
        { heartbeats_sent := 1, heartbeats_received := 0 }
      ({ dev1 with
           m_health_checked_connection := some conn
           m_incoming_tcp_transport := true
           m_tcp_descriptor := some descriptor
           m_ss_read_descriptors := dev1.m_ss_read_descriptors ++ [descriptor.fd] },
       [entry, Event.heartbeatSent, Event.addReadDescriptor descriptor.fd])

/-- E133Device::TCPConnectionClosed: resets the peer address in the
stats through the pointer without a NULL guard (none when the pointer is
NULL), then deletes the health checked connection, the incoming TCP
transport and the descriptor. -/
def TCPConnectionClosed (dev : E133Device) :
    Option (E133Device × List Event) :=
  match dev.m_tcp_stats with
  | none => none
  | some stats =>
      some ({ dev with
                m_tcp_stats := some { stats with ip_address := IPV4Address.mk 0 }
                m_health_checked_connection := none
                m_incoming_tcp_transport := false
                m_tcp_descriptor := none },
            [Event.logInfo "TCP conection closed"])

/-- E133Device::TCPConnectionUnhealthy: increments the unhealthy counter
when the stats pointer is non NULL, removes the descriptor from the
select server, closes it, transfers the on-close callback out of the
descriptor and runs it, which invokes TCPConnectionClosed.  Dereferences
of a NULL descriptor or a NULL transferred callback yield none. -/
def TCPConnectionUnhealthy (dev : E133Device) :
    Option (E133Device × List Event) :=
  let entry := Event.logInfo "TCP connection went unhealthy, closing"
  let dev1 :=
    match dev.m_tcp_stats with
    | some stats =>
        let stats := { stats with unhealthy_events := stats.unhealthy_events + 1 }
        { dev with m_tcp_stats := some stats }
    | none => dev
  match dev1.m_tcp_descriptor with
  | none => none
  | some d =>
      let dev2 :=
        { dev1 with m_ss_read_descriptors := dev1.m_ss_read_descriptors.erase d.fd }
      if d.on_close_set then
        let d2 := { d with is_open := false, on_close_set := false }
        let dev3 := { dev2 with m_tcp_descriptor := some d2 }
        match TCPConnectionClosed dev3 with
        | none => none
        | some (dev4, evs) =>
            some (dev4,
                  [entry, Event.removeReadDescriptor d.fd,
                   Event.closeDescriptor d.fd, Event.closeNotification] ++ evs)
      else none

/-- E133Device::E133DataReceived: when the transport header says TCP and
a health checked connection exists, HeartbeatReceived is invoked on it;
the Bool reports whether that happened. -/
def E133DataReceived (dev : E133Device) (header : TransportHeader) :
    E133Device × Bool :=
  match dev.m_health_checked_connection with
  | some conn =>
      if header.transport = TransportType.TCP then
        let conn := { conn with heartbeats_received := conn.heartbeats_received + 1 }
        ({ dev with m_health_checked_connection := some conn }, true)
      else (dev, false)
  | none => (dev, false)

/-- E133Device::RegisterEndpoint (the ADD notification observer):
installs an RDM inflator handler for the added endpoint id. -/
def RegisterEndpoint (dev : E133Device) (endpoint_id : Nat) : E133Device :=
  { dev with m_rdm_inflator_handlers := insert endpoint_id dev.m_rdm_inflator_handlers }

/-- E133Device::UnRegisterEndpoint (the REMOVE notification observer):
removes the RDM inflator handler for the removed endpoint id. -/
def UnRegisterEndpoint (dev : E133Device) (endpoint_id : Nat) : E133Device :=
  { dev with m_rdm_inflator_handlers := dev.m_rdm_inflator_handlers.erase endpoint_id }

end E133Device

/-- Modelled from the spec: EndpointManager::GetEndpoint, whose code is
not under src/.  The registry is a mapping endpoint-id to endpoint
handle; lookup returns the handle when the id is registered. -/
def GetEndpoint (endpoints : List (Nat × Nat)) (endpoint_id : Nat) :
    Option Nat :=
  (endpoints.find? (fun p => p.1 == endpoint_id)).map Prod.snd

namespace E133Device

/-- The endpoint selection step of E133Device::EndpointRequest: a
non-zero endpoint id is looked up through the endpoint manager, id 0
yields the root endpoint member. -/
def resolveEndpoint (dev : E133Device) (endpoint_id : Nat) : Option Nat :=
  if endpoint_id ≠ 0 then GetEndpoint dev.m_endpoint_manager endpoint_id
  else dev.m_root_endpoint

/-- E133Device::EndpointRequest: resolves the endpoint (dropping with a
diagnostic when absent), parses the raw payload with the external
RDMRequest::InflateFromData collaborator (dropping with a warning when
it returns NULL), and otherwise dispatches the parsed request to the
endpoint with a completion context of source address, source port,
sequence number and endpoint id. -/
def EndpointRequest (dev : E133Device)
    (inflateFromData : List Nat → Option RDMRequest)
    (endpoint_id : Nat) (transport_header : TransportHeader)
    (e133_header : E133Header) (raw_request : List Nat) : List Event :=
  let entry := Event.logInfo "Got request for to endpoint"
  match resolveEndpoint dev endpoint_id with
  | none =>
      [entry,
       Event.logInfo
         "Request to endpoint but no Endpoint has been registered, this is a bug!"]
  | some endpoint =>
      match inflateFromData raw_request with
      | none =>
          [entry,
           Event.logWarn "Failed to unpack E1.33 RDM message, ignoring request."]
      | some request =>
          [entry,
           Event.dispatch endpoint request
             { src_ip := transport_header.source_ip
               src_port := transport_header.source_port
               sequence_number := e133_header.sequence
               endpoint_id := endpoint_id }]

/-- E133Device::EndpointRequestComplete: a non-success code is dropped,
silently when it was a broadcast and with a warning otherwise; on
success an E1.33 header carrying the correlated sequence number and
endpoint id is built (source name "foo bar", rx ack and timeout false)
and the response PDU is sent over a UDP unicast transport addressed to
the original source address and port; a failed transmit only logs.
send_ok is the external SendRDM result. -/
def EndpointRequestComplete (dev : E133Device) (src_ip : IPV4Address)
    (src_port : Nat) (sequence_number : Nat) (endpoint_id : Nat)
    (response_code : rdm_response_code) (response_ptr : Option RDMResponse)
    (send_ok : Bool) : E133Device × List Event :=
  if response_code ≠ rdm_response_code.RDM_COMPLETED_OK then
    if response_code ≠ rdm_response_code.RDM_WAS_BROADCAST then
      (dev, [Event.logWarn "E1.33 request failed, dropping request"])
    else
      (dev, [])
  else
    let header : E133Header :=
      { source := "foo bar"
        sequence := sequence_number
        endpoint := endpoint_id
        rx_ack := false
        msg_timeout := false }
    let evs := [Event.udpSend src_ip src_port header response_ptr]
    (dev, if send_ok then evs
          else evs ++ [Event.logWarn "Failed to send E1.33 response"])

end E133Device

/-- Modelled from the spec: EndpointManager::RegisterEndpoint, whose
code is not under src/.  Registering an id not currently present adds it
to the registry and synchronously notifies the ADD observers, here the
device observer E133Device::RegisterEndpoint; an id already present is
left unchanged with no notification. -/
def managerRegisterEndpoint (dev : E133Device) (endpoint_id endpoint : Nat) :
    E133Device :=
  if endpoint_id ∈ dev.m_endpoint_manager.map Prod.fst then dev
  else
    let dev := { dev with
                   m_endpoint_manager := (endpoint_id, endpoint) :: dev.m_endpoint_manager }
    E133Device.RegisterEndpoint dev endpoint_id

/-- Modelled from the spec: EndpointManager::UnRegisterEndpoint, whose
code is not under src/.  Unregistering a present id removes it from the
registry and synchronously notifies the REMOVE observers, here the
device observer E133Device::UnRegisterEndpoint; unregistering an absent
id is a no-op with no notification. -/
def managerUnRegisterEndpoint (dev : E133Device) (endpoint_id : Nat) :
    E133Device :=
  if endpoint_id ∈ dev.m_endpoint_manager.map Prod.fst then
    let dev := { dev with
                   m_endpoint_manager :=
                     dev.m_endpoint_manager.filter (fun p => p.1 != endpoint_id) }
    E133Device.UnRegisterEndpoint dev endpoint_id
  else dev

/-- One operation on the Endpoint Registry. -/
inductive RegistryOp
  | register (endpoint_id endpoint : Nat)
  | unregister (endpoint_id : Nat)
deriving DecidableEq, Repr

/-- Run one registry operation through the endpoint manager (which fires
the device observers). -/
def applyRegistryOp (dev : E133Device) : RegistryOp → E133Device
  | RegistryOp.register id ep => managerRegisterEndpoint dev id ep
  | RegistryOp.unregister id => managerUnRegisterEndpoint dev id

/-- Run a sequence of registry operations in order. -/
def applyRegistryOps (dev : E133Device) (ops : List RegistryOp) : E133Device :=
  ops.foldl applyRegistryOp dev

/-- The set of endpoint ids currently registered in the manager. -/
def registeredIds (dev : E133Device) : Finset Nat :=
  (dev.m_endpoint_manager.map Prod.fst).toFinset

section Claims

open E133Device

/-- Claim C1: for every request completion whose response code is success,
EndpointRequestComplete emits exactly one UDP unicast reply addressed to the
original request source address and source port, with an E1.33 reply header
carrying the correlated sequence number and endpoint id; and the completion
context EndpointRequest captures is independent of whether the request
arrived over TCP or UDP. -/
theorem c1_success_reply (dev : E133Device) (src_ip : IPV4Address)
    (src_port sequence_number endpoint_id : Nat)
    (response_code : rdm_response_code) (response_ptr : Option RDMResponse)
    (send_ok : Bool) (infl : List Nat → Option RDMRequest) (id : Nat)
    (eh : E133Header) (raw : List Nat) (t t' : TransportType)
    (h : response_code = rdm_response_code.RDM_COMPLETED_OK) :
    (EndpointRequestComplete dev src_ip src_port sequence_number endpoint_id
        response_code response_ptr send_ok).2.filter isUdpSend
      = [Event.udpSend src_ip src_port
           { source := "foo bar", sequence := sequence_number,
             endpoint := endpoint_id, rx_ack := false, msg_timeout := false }
           response_ptr]
    ∧ EndpointRequest dev infl id
        { source_ip := src_ip, source_port := src_port, transport := t } eh raw
      = EndpointRequest dev infl id
          { source_ip := src_ip, source_port := src_port, transport := t' } eh raw := by
  subst h
  refine ⟨?_, ?_⟩
  · cases send_ok <;> rfl
  · rfl

/-- Witness for C1 at concrete inputs. -/
theorem c1_success_reply_witness :
    (EndpointRequestComplete (freshDevice none) ⟨7⟩ 5000 9 3
        rdm_response_code.RDM_COMPLETED_OK (some ⟨[1, 2]⟩) true).2.filter isUdpSend
      = [Event.udpSend ⟨7⟩ 5000 ⟨"foo bar", 9, 3, false, false⟩ (some ⟨[1, 2]⟩)]
    ∧ EndpointRequest (freshDevice none) (fun _ => none) 3
        ⟨⟨7⟩, 5000, TransportType.TCP⟩ ⟨"src", 9, 3, false, false⟩ []
      = EndpointRequest (freshDevice none) (fun _ => none) 3
          ⟨⟨7⟩, 5000, TransportType.UDP⟩ ⟨"src", 9, 3, false, false⟩ [] :=
  c1_success_reply (freshDevice none) ⟨7⟩ 5000 9 3
    rdm_response_code.RDM_COMPLETED_OK (some ⟨[1, 2]⟩) true (fun _ => none) 3
    ⟨"src", 9, 3, false, false⟩ [] TransportType.TCP TransportType.UDP rfl

/-- A device with an active health checked TCP session, used as a
concrete instance. -/
def activeSessionDevice : E133Device :=
  { freshDevice (some ⟨4, 1, ⟨9⟩⟩) with
      m_health_checked_connection := some ⟨1, 0⟩ }

/-- Claim C2: while a health checked connection is already active, a second
incoming TCP connection is closed immediately and the device state,
including the connection statistics, is left entirely unchanged. -/
theorem c2_single_session (dev : E133Device)
    (conn : E133HealthCheckedConnection) (descriptor : TcpSocketState)
    (setup_ok : Bool)
    (h : dev.m_health_checked_connection = some conn) :
    NewTCPConnection dev descriptor setup_ok
      = (dev, [peerLogEvent descriptor,
               Event.logWarn "Already got a TCP connection open, closing this one",
               Event.closeDescriptor descriptor.fd]) := by
  simp [NewTCPConnection, h]

/-- Witness for C2 at a concrete device with an active session. -/
theorem c2_single_session_witness :
    NewTCPConnection activeSessionDevice ⟨5, true, ⟨8⟩, 4000, false, true⟩ true
      = (activeSessionDevice,
         [Event.logInfo "New TCP connection from",
          Event.logWarn "Already got a TCP connection open, closing this one",
          Event.closeDescriptor 5]) := by
  have h := c2_single_session activeSessionDevice ⟨1, 0⟩
    ⟨5, true, ⟨8⟩, 4000, false, true⟩ true rfl
  simpa [peerLogEvent] using h

/-- Claim C5: the heartbeat-received notification fires exactly when the
transport header says TCP and a health checked connection is active; a
message on the UDP path never touches the health monitor. -/
theorem c5_heartbeat_tcp_only (dev : E133Device) (header : TransportHeader) :
    ((E133DataReceived dev header).2 = true
      ↔ (header.transport = TransportType.TCP
          ∧ dev.m_health_checked_connection.isSome = true))
    ∧ (header.transport = TransportType.UDP →
        E133DataReceived dev header = (dev, false)) := by
  cases hc : dev.m_health_checked_connection with
  | none => cases ht : header.transport <;> simp [E133DataReceived, hc, ht]
  | some conn => cases ht : header.transport <;> simp [E133DataReceived, hc, ht]

/-- Witness for C5: on the active-session device, UDP traffic leaves the
monitor untouched while TCP traffic counts as a heartbeat. -/
theorem c5_heartbeat_tcp_only_witness :
    E133DataReceived activeSessionDevice ⟨⟨8⟩, 4000, TransportType.UDP⟩
      = (activeSessionDevice, false)
    ∧ (E133DataReceived activeSessionDevice ⟨⟨8⟩, 4000, TransportType.TCP⟩).2 = true :=
  ⟨(c5_heartbeat_tcp_only activeSessionDevice ⟨⟨8⟩, 4000, TransportType.UDP⟩).2 rfl,
   (c5_heartbeat_tcp_only activeSessionDevice ⟨⟨8⟩, 4000, TransportType.TCP⟩).1.mpr
     ⟨rfl, rfl⟩⟩

/-- Claim C7: a completion with a non-success response code is dropped: a
broadcast code silently with no events at all, any other code with exactly
one warning; in both cases no UDP send and no dispatch occur and the device
state is unchanged. -/
theorem c7_nonsuccess_drop (dev : E133Device) (src_ip : IPV4Address)
    (src_port sequence_number endpoint_id : Nat)
    (response_code : rdm_response_code) (response_ptr : Option RDMResponse)
    (send_ok : Bool)
    (h : response_code ≠ rdm_response_code.RDM_COMPLETED_OK) :
    (EndpointRequestComplete dev src_ip src_port sequence_number endpoint_id
        response_code response_ptr send_ok).1 = dev
    ∧ (EndpointRequestComplete dev src_ip src_port sequence_number endpoint_id
        response_code response_ptr send_ok).2.filter isUdpSend = []
    ∧ (EndpointRequestComplete dev src_ip src_port sequence_number endpoint_id
        response_code response_ptr send_ok).2.filter isDispatch = []
    ∧ (response_code = rdm_response_code.RDM_WAS_BROADCAST →
        (EndpointRequestComplete dev src_ip src_port sequence_number endpoint_id
          response_code response_ptr send_ok).2 = [])
    ∧ (response_code ≠ rdm_response_code.RDM_WAS_BROADCAST →
        (EndpointRequestComplete dev src_ip src_port sequence_number endpoint_id
          response_code response_ptr send_ok).2
          = [Event.logWarn "E1.33 request failed, dropping request"]) := by
  by_cases hb : response_code = rdm_response_code.RDM_WAS_BROADCAST <;>
    simp [EndpointRequestComplete, h, hb, isUdpSend, isDispatch]

/-- Witness for C7: a timeout code is logged and dropped, a broadcast code
is dropped silently, neither sends anything. -/
theorem c7_nonsuccess_drop_witness :
    (EndpointRequestComplete (freshDevice none) ⟨7⟩ 5000 9 3
        rdm_response_code.RDM_TIMEOUT none true).1 = freshDevice none
    ∧ (EndpointRequestComplete (freshDevice none) ⟨7⟩ 5000 9 3
        rdm_response_code.RDM_TIMEOUT none true).2
        = [Event.logWarn "E1.33 request failed, dropping request"]
    ∧ (EndpointRequestComplete (freshDevice none) ⟨7⟩ 5000 9 3
        rdm_response_code.RDM_WAS_BROADCAST none true).2 = [] :=
  ⟨(c7_nonsuccess_drop (freshDevice none) ⟨7⟩ 5000 9 3
      rdm_response_code.RDM_TIMEOUT none true (by decide)).1,
   (c7_nonsuccess_drop (freshDevice none) ⟨7⟩ 5000 9 3
      rdm_response_code.RDM_TIMEOUT none true (by decide)).2.2.2.2 (by decide),
   (c7_nonsuccess_drop (freshDevice none) ⟨7⟩ 5000 9 3
      rdm_response_code.RDM_WAS_BROADCAST none true (by decide)).2.2.2.1 rfl⟩

/-- A device whose root endpoint is bound, used as a concrete instance. -/
def rootBoundDevice : E133Device :=
  E133Device.SetRootEndpoint (freshDevice none) 7

/-- Claim C9: when the raw RDM payload of a dispatched request fails to
parse, EndpointRequest drops it with a warning: no dispatch reaches the
endpoint and no reply is sent. -/
theorem c9_parse_failure_drop (dev : E133Device)
    (infl : List Nat → Option RDMRequest) (endpoint_id : Nat)
    (th : TransportHeader) (eh : E133Header) (raw : List Nat) (endpoint : Nat)
    (hep : resolveEndpoint dev endpoint_id = some endpoint)
    (hparse : infl raw = none) :
    EndpointRequest dev infl endpoint_id th eh raw
      = [Event.logInfo "Got request for to endpoint",
         Event.logWarn "Failed to unpack E1.33 RDM message, ignoring request."]
    ∧ (EndpointRequest dev infl endpoint_id th eh raw).filter
        (fun e => isDispatch e || isUdpSend e) = [] := by
  refine ⟨?_, ?_⟩ <;> simp [EndpointRequest, hep, hparse, isDispatch, isUdpSend]

/-- Witness for C9: a payload the parser rejects is dropped with exactly
the warning trace. -/
theorem c9_parse_failure_drop_witness :
    EndpointRequest rootBoundDevice (fun _ => none) 0
        ⟨⟨8⟩, 4000, TransportType.UDP⟩ ⟨"src", 2, 0, false, false⟩ [1, 2, 3]
      = [Event.logInfo "Got request for to endpoint",
         Event.logWarn "Failed to unpack E1.33 RDM message, ignoring request."]
    ∧ (EndpointRequest rootBoundDevice (fun _ => none) 0
        ⟨⟨8⟩, 4000, TransportType.UDP⟩ ⟨"src", 2, 0, false, false⟩ [1, 2, 3]).filter
        (fun e => isDispatch e || isUdpSend e) = [] :=
  c9_parse_failure_drop rootBoundDevice (fun _ => none) 0
    ⟨⟨8⟩, 4000, TransportType.UDP⟩ ⟨"src", 2, 0, false, false⟩ [1, 2, 3] 7 rfl rfl

/-- Claim C3: endpoint id 0 always resolves to the explicitly bound root
endpoint and never consults the registry, even when the registry holds an
entry for id 0; a non-zero id resolves through the registry; and a request
whose id resolves to nothing is dropped with a diagnostic and dispatches no
completion. -/
theorem c3_endpoint_routing (dev : E133Device) (mgr : List (Nat × Nat))
    (endpoint_id : Nat) (infl : List Nat → Option RDMRequest)
    (th : TransportHeader) (eh : E133Header) (raw : List Nat) :
    resolveEndpoint dev 0 = dev.m_root_endpoint
    ∧ resolveEndpoint { dev with m_endpoint_manager := mgr } 0
        = dev.m_root_endpoint
    ∧ (endpoint_id ≠ 0 →
        resolveEndpoint dev endpoint_id
          = GetEndpoint dev.m_endpoint_manager endpoint_id)
    ∧ (resolveEndpoint dev endpoint_id = none →
        EndpointRequest dev infl endpoint_id th eh raw
          = [Event.logInfo "Got request for to endpoint",
             Event.logInfo
               "Request to endpoint but no Endpoint has been registered, this is a bug!"]) := by
  refine ⟨rfl, rfl, fun h => by simp [resolveEndpoint, h],
          fun h => by simp [EndpointRequest, h]⟩

/-- A device whose root endpoint is handle 7 while the registry holds a
conflicting entry mapping id 0 to handle 99 and nothing else. -/
def conflictingRegistryDevice : E133Device :=
  { E133Device.SetRootEndpoint (freshDevice none) 7 with
      m_endpoint_manager := [(0, 99)] }

/-- Witness for C3: id 0 resolves to the root handle 7 and not to the
registry entry 99; the unregistered id 5 is dropped with the diagnostic. -/
theorem c3_endpoint_routing_witness :
    E133Device.resolveEndpoint conflictingRegistryDevice 0 = some 7
    ∧ E133Device.resolveEndpoint conflictingRegistryDevice 5 = none
    ∧ EndpointRequest conflictingRegistryDevice (fun _ => none) 5
        ⟨⟨8⟩, 4000, TransportType.UDP⟩ ⟨"src", 2, 5, false, false⟩ []
      = [Event.logInfo "Got request for to endpoint",
         Event.logInfo
           "Request to endpoint but no Endpoint has been registered, this is a bug!"] := by
  have h := c3_endpoint_routing conflictingRegistryDevice [(0, 99)] 5
    (fun _ => none) ⟨⟨8⟩, 4000, TransportType.UDP⟩ ⟨"src", 2, 5, false, false⟩ []
  exact ⟨h.1, by rw [h.2.2.1 (by decide)]; rfl, h.2.2.2 (by rw [h.2.2.1 (by decide)]; rfl)⟩

/-- Claim C4: the unhealthy transition increments the unhealthy counter,
removes the connection from the select server, closes the socket and runs
the close notification exactly once, which tears the session down. -/
theorem c4_unhealthy_teardown (dev : E133Device) (d : TcpSocketState)
    (stats : TCPConnectionStats)
    (hd : dev.m_tcp_descriptor = some d) (hcb : d.on_close_set = true)
    (hs : dev.m_tcp_stats = some stats) :
    TCPConnectionUnhealthy dev = some
      ({ dev with
           m_tcp_stats := some { connection_events := stats.connection_events,
                                 unhealthy_events := stats.unhealthy_events + 1,
                                 ip_address := ⟨0⟩ },
           m_ss_read_descriptors := dev.m_ss_read_descriptors.erase d.fd,
           m_health_checked_connection := none,
           m_incoming_tcp_transport := false,
           m_tcp_descriptor := none },
       [Event.logInfo "TCP connection went unhealthy, closing",
        Event.removeReadDescriptor d.fd, Event.closeDescriptor d.fd,
        Event.closeNotification, Event.logInfo "TCP conection closed"])
    ∧ closeNotificationCount
        [Event.logInfo "TCP connection went unhealthy, closing",
         Event.removeReadDescriptor d.fd, Event.closeDescriptor d.fd,
         Event.closeNotification, Event.logInfo "TCP conection closed"] = 1 := by
  refine ⟨?_, rfl⟩
  simp [TCPConnectionUnhealthy, TCPConnectionClosed, hd, hs, hcb]

/-- A device with an active session, a registered descriptor and live
statistics, used as a concrete instance for the teardown path. -/
def teardownDevice : E133Device :=
  { freshDevice (some ⟨4, 1, ⟨9⟩⟩) with
      m_health_checked_connection := some ⟨3, 2⟩,
      m_incoming_tcp_transport := true,
      m_tcp_descriptor := some ⟨5, true, ⟨8⟩, 4000, true, true⟩,
      m_ss_read_descriptors := [1, 0, 5] }

/-- Witness for C4: the concrete teardown bumps the unhealthy counter from
1 to 2, removes descriptor 5, closes it and notifies exactly once. -/
theorem c4_unhealthy_teardown_witness :
    TCPConnectionUnhealthy teardownDevice = some
      ({ freshDevice (some ⟨4, 2, ⟨0⟩⟩) with m_ss_read_descriptors := [1, 0] },
       [Event.logInfo "TCP connection went unhealthy, closing",
        Event.removeReadDescriptor 5, Event.closeDescriptor 5,
        Event.closeNotification, Event.logInfo "TCP conection closed"])
    ∧ closeNotificationCount
        [Event.logInfo "TCP connection went unhealthy, closing",
         Event.removeReadDescriptor 5, Event.closeDescriptor 5,
         Event.closeNotification, Event.logInfo "TCP conection closed"] = 1 := by
  have h := c4_unhealthy_teardown teardownDevice ⟨5, true, ⟨8⟩, 4000, true, true⟩
    ⟨4, 1, ⟨9⟩⟩ rfl rfl rfl
  exact ⟨by rw [h.1]; rfl, h.2⟩

/-- Claim C10: the statistics object is an unstated precondition of the
close path: with a NULL statistics pointer a new connection is still
accepted (the statistics updates there are guarded), but the close path
writes the peer-address reset through the pointer unconditionally, so both
the peer-initiated and the monitor-initiated close dereference NULL. -/
theorem c10_null_stats_close_deref (dev : E133Device)
    (descriptor : TcpSocketState)
    (h1 : dev.m_tcp_stats = none)
    (h2 : dev.m_health_checked_connection = none) :
    ((NewTCPConnection dev descriptor true).1.m_health_checked_connection).isSome
      = true
    ∧ (NewTCPConnection dev descriptor true).1.m_tcp_stats = none
    ∧ TCPConnectionClosed (NewTCPConnection dev descriptor true).1 = none
    ∧ TCPConnectionUnhealthy (NewTCPConnection dev descriptor true).1 = none := by
  simp [NewTCPConnection, TCPConnectionClosed, TCPConnectionUnhealthy, h1, h2]

/-- Witness for C10: the fresh device with a NULL statistics pointer
accepts a connection, after which the close path dereferences NULL. -/
theorem c10_null_stats_close_deref_witness :
    ((NewTCPConnection (freshDevice none) ⟨5, true, ⟨8⟩, 4000, false, true⟩
        true).1.m_health_checked_connection).isSome = true
    ∧ TCPConnectionClosed
        (NewTCPConnection (freshDevice none) ⟨5, true, ⟨8⟩, 4000, false, true⟩
          true).1 = none
    ∧ TCPConnectionUnhealthy
        (NewTCPConnection (freshDevice none) ⟨5, true, ⟨8⟩, 4000, false, true⟩
          true).1 = none := by
  have h := c10_null_stats_close_deref (freshDevice none)
    ⟨5, true, ⟨8⟩, 4000, false, true⟩ rfl rfl
  exact ⟨h.1, h.2.2.1, h.2.2.2⟩

/-- Claim C8, amended: Init fails when the TCP listen or the UDP open or
bind fails, a listen failure short-circuits before any UDP setup, every
failure path closes the TCP socket and registers nothing with the select
server; however the UDP-bind failure path leaves the UDP socket that Init
had already opened open rather than closing it. -/
theorem c8_init_failure (dev : E133Device) (env : InitEnv) :
    ((Init dev env).1 = true
      ↔ env.listen_ok = true ∧ env.udp_init_ok = true ∧ env.udp_bind_ok = true)
    ∧ ((Init dev env).1 = false →
        (Init dev env).2.m_tcp_socket_listening = false
        ∧ (Init dev env).2.m_ss_read_descriptors = dev.m_ss_read_descriptors)
    ∧ (env.listen_ok = false →
        (Init dev env).2.m_udp_socket_open = dev.m_udp_socket_open
        ∧ (Init dev env).2.m_udp_socket_bound = dev.m_udp_socket_bound)
    ∧ (env.listen_ok = true → env.udp_init_ok = true → env.udp_bind_ok = false →
        (Init dev env).2.m_udp_socket_open = true)
    ∧ ((Init dev env).1 = true →
        (Init dev env).2.m_ss_read_descriptors
          = dev.m_ss_read_descriptors ++ [udp_socket_fd, tcp_socket_fd]) := by
  obtain ⟨l, i, b⟩ := env
  cases l <;> cases i <;> cases b <;> simp [Init]

/-- Counterexample for C8 as stated: when the TCP listen and the UDP open
succeed but the UDP bind fails, Init fails and closes the TCP socket but
leaves the UDP socket it opened still open, so not every failure path
closes whatever socket was already opened. -/
theorem c8_claim_counterexample :
    (Init (freshDevice none) ⟨true, true, false⟩).1 = false
    ∧ (Init (freshDevice none) ⟨true, true, false⟩).2.m_udp_socket_open = true
    ∧ (Init (freshDevice none) ⟨true, true, false⟩).2.m_tcp_socket_listening = false
    ∧ (freshDevice none).m_udp_socket_open = false :=
  ⟨rfl, rfl, rfl, rfl⟩

/-- Witness for C8 (amended) at concrete environments: a UDP-open failure
fails with the TCP socket closed and nothing registered, and a fully
successful environment registers the UDP then the TCP descriptor. -/
theorem c8_init_failure_witness :
    (Init (freshDevice none) ⟨true, false, true⟩).2.m_tcp_socket_listening = false
    ∧ (Init (freshDevice none) ⟨true, false, true⟩).2.m_ss_read_descriptors = []
    ∧ (Init (freshDevice none) ⟨true, true, true⟩).1 = true
    ∧ (Init (freshDevice none) ⟨true, true, true⟩).2.m_ss_read_descriptors = [1, 0] := by
  have hf := c8_init_failure (freshDevice none) ⟨true, false, true⟩
  have hs := c8_init_failure (freshDevice none) ⟨true, true, true⟩
  refine ⟨(hf.2.1 rfl).1, (hf.2.1 rfl).2, hs.1.mpr ⟨rfl, rfl, rfl⟩, ?_⟩
  have := hs.2.2.2.2 (hs.1.mpr ⟨rfl, rfl, rfl⟩)
  simpa [udp_socket_fd, tcp_socket_fd] using this

/-- The id sets of a filtered association list: filtering out one key is
erasing it from the key set. -/
lemma keys_filter_toFinset (l : List (Nat × Nat)) (id : Nat) :
    ((l.filter (fun p => p.1 != id)).map Prod.fst).toFinset
      = ((l.map Prod.fst).toFinset).erase id := by
  ext a
  simp only [List.mem_toFinset, List.mem_map, List.mem_filter, Finset.mem_erase,
    bne_iff_ne, ne_eq]
  constructor
  · rintro ⟨x, ⟨hx, hne⟩, rfl⟩
    exact ⟨hne, x, hx, rfl⟩
  · rintro ⟨hne, x, hx, rfl⟩
    exact ⟨x, ⟨hx, hne⟩, rfl⟩

/-- One registry operation preserves the agreement between the registered
id set and the installed handler set. -/
lemma registryOp_preserves (dev : E133Device) (op : RegistryOp)
    (h : registeredIds dev = dev.m_rdm_inflator_handlers) :
    registeredIds (applyRegistryOp dev op)
      = (applyRegistryOp dev op).m_rdm_inflator_handlers := by
  cases op with
  | register id ep =>
      by_cases hm : id ∈ dev.m_endpoint_manager.map Prod.fst
      · simp [applyRegistryOp, managerRegisterEndpoint, hm, h]
      · simp [applyRegistryOp, managerRegisterEndpoint, hm, registeredIds,
              E133Device.RegisterEndpoint, ← h]
  | unregister id =>
      by_cases hm : id ∈ dev.m_endpoint_manager.map Prod.fst
      · simp [applyRegistryOp, managerUnRegisterEndpoint, hm, registeredIds,
              E133Device.UnRegisterEndpoint, keys_filter_toFinset, ← h]
      · simp [applyRegistryOp, managerUnRegisterEndpoint, hm, h]

/-- Claim C6: after every sequence of register and unregister operations
through the endpoint manager, the set of endpoint ids with an installed RDM
inflator handler equals the set of currently registered ids, provided the
two agreed beforehand. -/
theorem c6_registry_handler_sync (ops : List RegistryOp) (dev : E133Device)
    (h : registeredIds dev = dev.m_rdm_inflator_handlers) :
    registeredIds (applyRegistryOps dev ops)
      = (applyRegistryOps dev ops).m_rdm_inflator_handlers := by
  induction ops generalizing dev with
  | nil => exact h
  | cons op rest ih =>
      exact ih (applyRegistryOp dev op) (registryOp_preserves dev op h)

/-- Witness for C6 on a concrete operation sequence from the fresh device:
registering ids 5 and 7 and unregistering 5 (twice, the second a no-op)
leaves exactly handler 7 installed, matching the registry. -/
theorem c6_registry_handler_sync_witness :
    registeredIds (applyRegistryOps (freshDevice none)
        [RegistryOp.register 5 100, RegistryOp.register 7 101,
         RegistryOp.unregister 5, RegistryOp.unregister 5])
      = (applyRegistryOps (freshDevice none)
          [RegistryOp.register 5 100, RegistryOp.register 7 101,
           RegistryOp.unregister 5, RegistryOp.unregister 5]).m_rdm_inflator_handlers
    ∧ (applyRegistryOps (freshDevice none)
        [RegistryOp.register 5 100, RegistryOp.register 7 101,
         RegistryOp.unregister 5, RegistryOp.unregister 5]).m_rdm_inflator_handlers
      = insert 7 ∅ :=
  ⟨c6_registry_handler_sync
     [RegistryOp.register 5 100, RegistryOp.register 7 101,
      RegistryOp.unregister 5, RegistryOp.unregister 5] (freshDevice none) rfl,
   by decide⟩

end Claims
